import Mathlib

/-!
Verification development for `pgp-cp`, a utility that copies a file to a
destination path only when its detached OpenPGP signature is valid and meets
a minimum trust level.

The program (`src/pgp-cp.py`) is a sequential pipeline over the filesystem
with one call into an external OpenPGP engine.  We embed it shallowly:

* the filesystem is an explicit state (an association list of regular files
  plus a list of existing directories);
* the gnupg engine is a pair of oracle functions (initialization and
  detached-signature verification), since the engine lives outside the
  repository and is treated as an opaque collaborator;
* `main` is a pure function from the parsed arguments, the initial
  filesystem and the oracles to a run result carrying the exit code, the
  final filesystem, the emitted log records and the instrumented traces of
  the engine-initialization, verification and move calls.

Path arithmetic (`os.path.basename`, `os.path.join`, `os.path.expanduser`
for the `~` and `~/` forms) is modelled on the character lists underlying
`String`, following the POSIX implementations used by the script.
-/

namespace PgpCp

/-- Model of `os.path.basename`: the longest suffix of the path that contains
no `/` (the segment after the last slash). -/
def basenameList (l : List Char) : List Char :=
  l.foldl (fun acc c => if c = '/' then [] else acc ++ [c]) []

/-- Model of `os.path.basename` on strings. -/
def basename (p : String) : String := ⟨basenameList p.data⟩

/-- Whether the first character of a string is `/` (used by `os.path.join`
to detect an absolute second component). -/
def strHeadIsSlash (s : String) : Bool :=
  match s.data with
  | c :: _ => c = '/'
  | [] => false

/-- Whether the last character of a string is `/`. -/
def strLastIsSlash (s : String) : Bool :=
  match s.data.getLast? with
  | some c => c = '/'
  | none => false

/-- Model of the two-argument POSIX `os.path.join`. -/
def joinPath (a b : String) : String :=
  if strHeadIsSlash b = true then b
  else if a = "" ∨ strLastIsSlash a = true then a ++ b
  else a ++ "/" ++ b

/-- Model of `os.path.expanduser` for the `~` and `~/...` forms (the script
only ever receives such paths or already-absolute paths; `~user` forms are
passed through unchanged). -/
def expanduser (home p : String) : String :=
  match p.data with
  | ['~'] => home
  | '~' :: '/' :: rest => home ++ String.mk ('/' :: rest)
  | _ => p

/-- Association-list lookup for the file table, keyed by path. -/
def lookupFile : List (String × String) → String → Option String
  | [], _ => none
  | (k, v) :: rest, p => if k = p then some v else lookupFile rest p

/-- Remove every binding of a path from the file table. -/
def eraseFile : List (String × String) → String → List (String × String)
  | [], _ => []
  | (k, v) :: rest, p =>
      if k = p then eraseFile rest p else (k, v) :: eraseFile rest p

/-- Membership test for the directory list. -/
def memDir : List String → String → Bool
  | [], _ => false
  | d :: rest, p => if d = p then true else memDir rest p

/-- A filesystem state: regular files (path with contents) and directories. -/
structure FS where
  files : List (String × String)
  dirs : List String
deriving DecidableEq

/-- Contents of the regular file at a path, if any. -/
def FS.readFile (fs : FS) (p : String) : Option String := lookupFile fs.files p

/-- Whether a regular file exists at the path. -/
def FS.isFile (fs : FS) (p : String) : Bool := (fs.readFile p).isSome

/-- Whether a directory exists at the path. -/
def FS.isDir (fs : FS) (p : String) : Bool := memDir fs.dirs p

/-- Model of `os.path.exists`. -/
def FS.pathExists (fs : FS) (p : String) : Bool := fs.isFile p || fs.isDir p

/-- Create or overwrite the regular file at a path. -/
def FS.writeFile (fs : FS) (p c : String) : FS :=
  ⟨(p, c) :: eraseFile fs.files p, fs.dirs⟩

/-- Delete the regular file at a path (no-op if absent). -/
def FS.removeFile (fs : FS) (p : String) : FS :=
  ⟨eraseFile fs.files p, fs.dirs⟩

/-- Model of `os.mkdir`; the script only calls it after checking that the
path does not exist. -/
def FS.mkdir (fs : FS) (d : String) : FS := ⟨fs.files, d :: fs.dirs⟩

/-- Model of `shutil.copy src dst`: if `dst` is a directory the file is
copied into it under `basename src`; copying a missing file, a directory,
a file onto itself, or onto a directory raises. -/
def FS.copyFile (fs : FS) (src dst : String) : Except String FS :=
  match fs.readFile src with
  | none => Except.error "source missing or not a regular file"
  | some c =>
      let realDst := if fs.isDir dst then joinPath dst (basename src) else dst
      if realDst = src then Except.error "same file"
      else if fs.isDir realDst then Except.error "target is a directory"
      else Except.ok (fs.writeFile realDst c)

/-- Model of `shutil.move src dst` for a regular-file source: renaming onto
an existing file silently overwrites; moving into a directory refuses to
overwrite an existing entry. -/
def FS.move (fs : FS) (src dst : String) : Except String FS :=
  match fs.readFile src with
  | none => Except.error "source missing"
  | some c =>
      if fs.isDir dst then
        if fs.pathExists (joinPath dst (basename src)) = true then
          Except.error "destination path already exists"
        else Except.ok ((fs.removeFile src).writeFile (joinPath dst (basename src)) c)
      else Except.ok ((fs.removeFile src).writeFile dst c)

/-- Model of `os.remove`. -/
def FS.remove (fs : FS) (p : String) : Except String FS :=
  if fs.isFile p then Except.ok (fs.removeFile p)
  else Except.error "no such file"

/-- The verification result returned by `gpg.verify_file`
(`valid`, `creation_date`, `username`, `key_id`, `trust_level`). -/
structure VerifyResult where
  valid : Bool
  creation_date : String
  username : String
  key_id : String
  trust_level : Int
deriving DecidableEq

/-- Parsed command-line arguments (the fields of the `argparse` namespace). -/
structure Args where
  input_path : String
  sig_path : String
  output_path : String
  required_trust_level : Int
  quar_dir : String
  gpg_home : String
  log_dest : String
  log_verbose : Bool
deriving DecidableEq

/-- Raw command-line option values before `argparse` validation. -/
structure RawArgs where
  input : Option String
  sig : Option String
  output : Option String
  trust_level : Option Int
  quar : Option String
  gpg_home : Option String
  log_dest : Option String
  verbose : Bool

/-- Model of `parse_args` (src/pgp-cp.py lines 28-82): `-i`, `-s`, `-o` are
required; `--trust-level` is restricted to choices {2,3,4} with default 3;
`--log-dest` is restricted to {stream, syslog, none} with default stream;
`--quar` defaults to `~/pgp-cp_quar` and `--gpg-home` to `~/.gnupg`.
`none` is an `argparse` usage rejection. -/
def parse_args (r : RawArgs) : Option Args :=
  match r.input, r.sig, r.output with
  | some i, some s, some o =>
      let t := r.trust_level.getD 3
      let l := r.log_dest.getD "stream"
      if (t = 2 ∨ t = 3 ∨ t = 4) ∧ (l = "stream" ∨ l = "syslog" ∨ l = "none") then
        some ⟨i, s, o, t, r.quar.getD "~/pgp-cp_quar", r.gpg_home.getD "~/.gnupg", l, r.verbose⟩
      else none
  | _, _, _ => none

/-- The logging handler installed by `log_init` when the branch completes.
No syslog handler ever exists: the `syslog` branch crashes before
constructing one (see `log_init`). -/
inductive LogHandler where
  | stream
  | nullHandler
deriving DecidableEq

/-- The ways `log_init` dies with an uncaught exception. -/
inductive LogInitError where
  /-- The `syslog` branch (src/pgp-cp.py line 113) evaluates
  `logging.handlers`, but the script only ever runs `import logging`
  (line 15) and none of its imports load the `logging.handlers` submodule,
  so the attribute lookup raises `AttributeError` before any handler is
  constructed. -/
  | attributeMissing
  /-- No branch matched the destination, so `log_handler` is unbound and
  line 118 raises `NameError`. -/
  | unboundHandler
deriving DecidableEq

/-- Model of `log_init` (src/pgp-cp.py lines 93-124): the `if`/`elif` chain
on the destination string.  `stream` installs a console `StreamHandler` and
`none` the custom discarding handler; `syslog` raises an uncaught
`AttributeError` (the `logging.handlers` submodule is never imported); any
other destination leaves `log_handler` unbound, an uncaught `NameError`. -/
def log_init (destination : String) : Except LogInitError LogHandler :=
  if destination = "stream" then Except.ok LogHandler.stream
  else if destination = "syslog" then Except.error LogInitError.attributeMissing
  else if destination = "none" then Except.ok LogHandler.nullHandler
  else Except.error LogInitError.unboundHandler

/-- The log records emitted by `main`, tagged with the data interpolated
into each message. -/
inductive LogEvent where
  | debugStarted
  | debugGpgInit (home : String)
  | errorGpgInit (msg : String)
  | debugQuarSetup (dir : String)
  | infoCreateQuar (dir : String)
  | infoCopying (input sig quar : String)
  | debugBuildPaths
  | errorQuarFail (input quar : String)
  | infoLoading (path : String)
  | errorOpenFail (msg : String)
  | infoVerifying
  | errorInvalid (path : String)
  | infoSigned (creation_date username key_id : String)
  | errorTrust (level : Int)
  | debugTrustLevel (level : Int)
  | infoMoving (src dst : String)
  | errorMoveFail (output : String)
  | infoSuccess (input output : String)
deriving DecidableEq

/-- Debug records pass the level filter only with `--verbose`
(the logger level is INFO otherwise). -/
def dbg (v : Bool) (e : LogEvent) : List LogEvent := if v then [e] else []

/-- Outcome of the quarantine-staging block (src/pgp-cp.py lines 151-179):
the log records emitted so far, the filesystem after the attempt (partial
effects persist on failure), and whether the block completed. -/
structure StageOut where
  log : List LogEvent
  fs : FS
  ok : Bool
deriving DecidableEq

/-- The quarantine-staging block: ensure the quarantine directory exists,
then `shutil.copy` the input file and the signature into it.  Any failure
aborts (the surrounding `except` in `main` exits 1). -/
def stageQuar (fs0 : FS) (quarDir quarArg inputP sigP : String) (v : Bool) : StageOut :=
  match (if fs0.pathExists quarDir then (([] : List LogEvent), fs0)
         else ([LogEvent.infoCreateQuar quarArg], fs0.mkdir quarDir)) with
  | (log1, fs1) =>
      match fs1.copyFile inputP quarDir with
      | Except.error _ => ⟨log1 ++ [LogEvent.infoCopying inputP sigP quarArg], fs1, false⟩
      | Except.ok fs2 =>
          match fs2.copyFile sigP quarDir with
          | Except.error _ => ⟨log1 ++ [LogEvent.infoCopying inputP sigP quarArg], fs2, false⟩
          | Except.ok fs3 =>
              ⟨log1 ++ [LogEvent.infoCopying inputP sigP quarArg]
                 ++ dbg v LogEvent.debugBuildPaths, fs3, true⟩

/-- The staged path of the input file
(`os.path.join(quar_dir, os.path.basename(args.input_path))`,
src/pgp-cp.py lines 168-169, with `quar_dir` the expanded quarantine path). -/
def stagedInput (args : Args) (home : String) : String :=
  joinPath (expanduser home args.quar_dir) (basename args.input_path)

/-- The staged path of the signature file
(`os.path.join(quar_dir, os.path.basename(args.sig_path))`,
src/pgp-cp.py lines 171-172). -/
def stagedSig (args : Args) (home : String) : String :=
  joinPath (expanduser home args.quar_dir) (basename args.sig_path)

/-- Shorthand for the staging block as `main` invokes it. -/
def stageOf (args : Args) (home : String) (fs0 : FS) : StageOut :=
  stageQuar fs0 (expanduser home args.quar_dir) args.quar_dir
    args.input_path args.sig_path args.log_verbose

/-- The observable outcome of a run: exit code, final filesystem, emitted
log records, and the traces of engine-initialization calls, verification
calls (pairs of file path and signature path) and move calls (source and
destination). -/
structure RunResult where
  exitCode : Nat
  fs : FS
  log : List LogEvent
  gpgInitCalls : List String
  verifyCalls : List (String × String)
  moveCalls : List (String × String)
deriving DecidableEq

/-- Shallow embedding of `main` (src/pgp-cp.py lines 128-231) after argument
parsing and logging setup.  `gi` models `gnupg.GPG(homedir=...)` (success or
exception) and `gv` models `gpg.verify_file` on the staged paths (a result
or an exception); both are external-engine oracles. -/
def main (args : Args) (home : String) (fs0 : FS)
    (gi : String → Except String Unit)
    (gv : String → String → Except String VerifyResult) : RunResult :=
  let v := args.log_verbose
  let preL := dbg v LogEvent.debugStarted ++ dbg v (LogEvent.debugGpgInit args.gpg_home)
  match gi args.gpg_home with
  | Except.error msg =>
      ⟨1, fs0, preL ++ [LogEvent.errorGpgInit msg], [args.gpg_home], [], []⟩
  | Except.ok _ =>
      let st := stageOf args home fs0
      let l0 := preL ++ dbg v (LogEvent.debugQuarSetup args.quar_dir) ++ st.log
      if st.ok then
        let input_path := stagedInput args home
        let sig_path := stagedSig args home
        let l1 := l0 ++ [LogEvent.infoLoading input_path]
        if st.fs.isFile input_path then
          match gv input_path sig_path with
          | Except.error msg =>
              ⟨1, st.fs, l1 ++ [LogEvent.errorOpenFail msg],
                [args.gpg_home], [(input_path, sig_path)], []⟩
          | Except.ok input_data =>
              let l2 := l1 ++ [LogEvent.infoVerifying]
              if input_data.valid = false then
                ⟨1, st.fs, l2 ++ [LogEvent.errorInvalid input_path],
                  [args.gpg_home], [(input_path, sig_path)], []⟩
              else
                let l3 := l2 ++ [LogEvent.infoSigned input_data.creation_date
                  input_data.username input_data.key_id]
                if input_data.trust_level < args.required_trust_level then
                  ⟨2, st.fs, l3 ++ [LogEvent.errorTrust input_data.trust_level],
                    [args.gpg_home], [(input_path, sig_path)], []⟩
                else
                  let l4 := l3 ++ dbg v (LogEvent.debugTrustLevel input_data.trust_level)
                    ++ [LogEvent.infoMoving input_path args.output_path]
                  match st.fs.move input_path args.output_path with
                  | Except.error _ =>
                      ⟨1, st.fs, l4 ++ [LogEvent.errorMoveFail args.output_path],
                        [args.gpg_home], [(input_path, sig_path)],
                        [(input_path, args.output_path)]⟩
                  | Except.ok fs1 =>
                      match fs1.remove sig_path with
                      | Except.error _ =>
                          ⟨1, fs1, l4 ++ [LogEvent.errorMoveFail args.output_path],
                            [args.gpg_home], [(input_path, sig_path)],
                            [(input_path, args.output_path)]⟩
                      | Except.ok fs2 =>
                          ⟨0, fs2, l4 ++ [LogEvent.infoSuccess args.input_path args.output_path],
                            [args.gpg_home], [(input_path, sig_path)],
                            [(input_path, args.output_path)]⟩
        else
          ⟨1, st.fs, l1 ++ [LogEvent.errorOpenFail "could not open staged input"],
            [args.gpg_home], [], []⟩
      else
        ⟨1, st.fs, l0 ++ [LogEvent.errorQuarFail args.input_path args.quar_dir],
          [args.gpg_home], [], []⟩

/-- The whole program: `argparse` rejection exits with status 2 before any
other work; a crash in `log_init` (syslog's `AttributeError`, or the
`NameError` of an unmatched destination) kills the interpreter with the
uncaught-exception status 1 before any pipeline stage; otherwise `main`'s
pipeline runs. -/
def program (r : RawArgs) (home : String) (fs0 : FS)
    (gi : String → Except String Unit)
    (gv : String → String → Except String VerifyResult) : RunResult :=
  match parse_args r with
  | none => ⟨2, fs0, [], [], [], []⟩
  | some args =>
      match log_init args.log_dest with
      | Except.error _ => ⟨1, fs0, [], [], [], []⟩
      | Except.ok _ => main args home fs0 gi gv

/-! ### Basic lemmas about the filesystem model -/

theorem lookupFile_eraseFile_ne (l : List (String × String)) (p q : String)
    (h : q ≠ p) : lookupFile (eraseFile l p) q = lookupFile l q := by
  induction l with
  | nil => rfl
  | cons kv rest ih =>
      obtain ⟨k, c⟩ := kv
      by_cases hk : k = p
      · subst hk
        simp [eraseFile, lookupFile, ih, Ne.symm h]
      · simp only [eraseFile, if_neg hk, lookupFile, ih]

theorem lookupFile_eraseFile_self (l : List (String × String)) (p : String) :
    lookupFile (eraseFile l p) p = none := by
  induction l with
  | nil => rfl
  | cons kv rest ih =>
      obtain ⟨k, c⟩ := kv
      by_cases hk : k = p
      · simp only [eraseFile, if_pos hk, ih]
      · simp only [eraseFile, if_neg hk, lookupFile, if_neg hk, ih]

theorem FS.readFile_writeFile_self (fs : FS) (p c : String) :
    (fs.writeFile p c).readFile p = some c := by
  simp [FS.writeFile, FS.readFile, lookupFile]

theorem FS.readFile_writeFile_ne (fs : FS) (p c q : String) (h : q ≠ p) :
    (fs.writeFile p c).readFile q = fs.readFile q := by
  simp only [FS.writeFile, FS.readFile, lookupFile, if_neg (Ne.symm h)]
  exact lookupFile_eraseFile_ne fs.files p q h

theorem FS.readFile_removeFile_self (fs : FS) (p : String) :
    (fs.removeFile p).readFile p = none := by
  simp only [FS.removeFile, FS.readFile]
  exact lookupFile_eraseFile_self fs.files p

theorem FS.readFile_removeFile_ne (fs : FS) (p q : String) (h : q ≠ p) :
    (fs.removeFile p).readFile q = fs.readFile q := by
  simp only [FS.removeFile, FS.readFile]
  exact lookupFile_eraseFile_ne fs.files p q h

theorem FS.isDir_writeFile (fs : FS) (p c q : String) :
    (fs.writeFile p c).isDir q = fs.isDir q := rfl

theorem FS.isDir_removeFile (fs : FS) (p q : String) :
    (fs.removeFile p).isDir q = fs.isDir q := rfl

theorem FS.readFile_mkdir (fs : FS) (d p : String) :
    (fs.mkdir d).readFile p = fs.readFile p := rfl

theorem FS.isDir_mkdir_self (fs : FS) (d : String) :
    (fs.mkdir d).isDir d = true := by
  simp [FS.mkdir, FS.isDir, memDir]

theorem FS.isDir_mkdir_ne (fs : FS) (d q : String) (h : q ≠ d) :
    (fs.mkdir d).isDir q = fs.isDir q := by
  simp only [FS.mkdir, FS.isDir, memDir, if_neg (Ne.symm h)]

theorem FS.isFile_of_readFile (fs : FS) (p c : String)
    (h : fs.readFile p = some c) : fs.isFile p = true := by
  simp only [FS.isFile, h, Option.isSome]

/-- Copying (`shutil.copy`) an existing regular file into an existing directory
succeeds and writes the staged copy, provided the staged location is neither
the source itself nor a directory. -/
theorem FS.copyFile_toDir (fs : FS) (src dst c : String)
    (h : fs.readFile src = some c) (hd : fs.isDir dst = true)
    (hne : joinPath dst (basename src) ≠ src)
    (hnd : fs.isDir (joinPath dst (basename src)) = false) :
    fs.copyFile src dst = Except.ok (fs.writeFile (joinPath dst (basename src)) c) := by
  simp only [FS.copyFile, h, hd, if_true, if_neg hne, hnd, Bool.false_eq_true, if_false]

/-! ### The staging block on a well-formed run configuration -/

/-- The configuration facts that make the quarantine staging step of a run
well-behaved: the input and signature files exist, the quarantine path is
either absent (it will be created) or already a directory, and the staged
locations do not collide with the original paths, with the quarantine
directory itself, or with existing directories.  These are exactly the
implicit preconditions of `shutil.copy`-based staging. -/
structure StageOK (args : Args) (home : String) (fs0 : FS) (cIn cSig : String) : Prop where
  inContent : fs0.readFile args.input_path = some cIn
  sigContent : fs0.readFile args.sig_path = some cSig
  quarOk : fs0.pathExists (expanduser home args.quar_dir) = false ∨
    fs0.isDir (expanduser home args.quar_dir) = true
  stagedInNeIn : stagedInput args home ≠ args.input_path
  stagedInNeSig : stagedInput args home ≠ args.sig_path
  stagedSigNeSig : stagedSig args home ≠ args.sig_path
  stagedInNotDir : fs0.isDir (stagedInput args home) = false
  stagedSigNotDir : fs0.isDir (stagedSig args home) = false
  stagedInNeQuar : stagedInput args home ≠ expanduser home args.quar_dir
  stagedSigNeQuar : stagedSig args home ≠ expanduser home args.quar_dir

/-- Staging computed on the filesystem reached after the directory step:
both copies land, in order, on top of `fs1`. -/
theorem stageQuar_eq_of (fs0 fs1 : FS) (qd qa i s cIn cSig : String) (v : Bool)
    (lg : List LogEvent)
    (hstep : (if fs0.pathExists qd then (([] : List LogEvent), fs0)
              else ([LogEvent.infoCreateQuar qa], fs0.mkdir qd)) = (lg, fs1))
    (hIn : fs1.readFile i = some cIn) (hSig : fs1.readFile s = some cSig)
    (hqd : fs1.isDir qd = true)
    (h1 : joinPath qd (basename i) ≠ i)
    (h2 : joinPath qd (basename i) ≠ s)
    (h3 : joinPath qd (basename s) ≠ s)
    (d1 : fs1.isDir (joinPath qd (basename i)) = false)
    (d2 : fs1.isDir (joinPath qd (basename s)) = false) :
    stageQuar fs0 qd qa i s v =
      ⟨lg ++ [LogEvent.infoCopying i s qa] ++ dbg v LogEvent.debugBuildPaths,
       (fs1.writeFile (joinPath qd (basename i)) cIn).writeFile
         (joinPath qd (basename s)) cSig,
       true⟩ := by
  have c1 : fs1.copyFile i qd =
      Except.ok (fs1.writeFile (joinPath qd (basename i)) cIn) :=
    FS.copyFile_toDir fs1 i qd cIn hIn hqd h1 d1
  have hSig2 : (fs1.writeFile (joinPath qd (basename i)) cIn).readFile s = some cSig := by
    rw [FS.readFile_writeFile_ne fs1 _ cIn s (fun hc => h2 hc.symm)]
    exact hSig
  have c2 : (fs1.writeFile (joinPath qd (basename i)) cIn).copyFile s qd =
      Except.ok ((fs1.writeFile (joinPath qd (basename i)) cIn).writeFile
        (joinPath qd (basename s)) cSig) := by
    refine FS.copyFile_toDir _ s qd cSig hSig2 ?_ h3 ?_
    · rw [FS.isDir_writeFile]; exact hqd
    · rw [FS.isDir_writeFile]; exact d2
  unfold stageQuar
  rw [hstep]
  simp only [c1, c2]

/-- Full characterization of the staging step under `StageOK`: it succeeds,
the staged signature holds the original signature bytes, the staged input
holds the original input bytes unless the two staged paths collide (in which
case the signature copy overwrote the input copy), every other path is
untouched, and the quarantine directory exists afterwards. -/
theorem stageQuar_spec (args : Args) (home : String) (fs0 : FS) (cIn cSig : String)
    (hs : StageOK args home fs0 cIn cSig) :
    (stageOf args home fs0).ok = true ∧
    (stageOf args home fs0).fs.readFile (stagedSig args home) = some cSig ∧
    (stagedInput args home ≠ stagedSig args home →
      (stageOf args home fs0).fs.readFile (stagedInput args home) = some cIn) ∧
    (∀ p, p ≠ stagedInput args home → p ≠ stagedSig args home →
      (stageOf args home fs0).fs.readFile p = fs0.readFile p) ∧
    (∀ p, p ≠ expanduser home args.quar_dir →
      (stageOf args home fs0).fs.isDir p = fs0.isDir p) ∧
    (stageOf args home fs0).fs.isDir (expanduser home args.quar_dir) = true := by
  have heq : ∃ fs1 : FS,
      stageOf args home fs0 =
        ⟨(if fs0.pathExists (expanduser home args.quar_dir) then []
          else [LogEvent.infoCreateQuar args.quar_dir])
           ++ [LogEvent.infoCopying args.input_path args.sig_path args.quar_dir]
           ++ dbg args.log_verbose LogEvent.debugBuildPaths,
         (fs1.writeFile (stagedInput args home) cIn).writeFile (stagedSig args home) cSig,
         true⟩ ∧
      fs1.readFile = fs0.readFile ∧
      (∀ p, p ≠ expanduser home args.quar_dir → fs1.isDir p = fs0.isDir p) ∧
      fs1.isDir (expanduser home args.quar_dir) = true := by
    rcases hs.quarOk with hq | hq
    · refine ⟨fs0.mkdir (expanduser home args.quar_dir), ?_, ?_, ?_,
        FS.isDir_mkdir_self fs0 _⟩
      · unfold stageOf
        rw [stageQuar_eq_of fs0 (fs0.mkdir (expanduser home args.quar_dir))
          (expanduser home args.quar_dir) args.quar_dir args.input_path args.sig_path
          cIn cSig args.log_verbose [LogEvent.infoCreateQuar args.quar_dir]
          (by rw [hq]; simp)
          (by rw [FS.readFile_mkdir]; exact hs.inContent)
          (by rw [FS.readFile_mkdir]; exact hs.sigContent)
          (FS.isDir_mkdir_self fs0 _)
          hs.stagedInNeIn hs.stagedInNeSig hs.stagedSigNeSig
          (by show (fs0.mkdir (expanduser home args.quar_dir)).isDir
                (stagedInput args home) = false
              rw [FS.isDir_mkdir_ne fs0 _ _ hs.stagedInNeQuar]
              exact hs.stagedInNotDir)
          (by show (fs0.mkdir (expanduser home args.quar_dir)).isDir
                (stagedSig args home) = false
              rw [FS.isDir_mkdir_ne fs0 _ _ hs.stagedSigNeQuar]
              exact hs.stagedSigNotDir)]
        rw [hq]
        simp only [Bool.false_eq_true, if_false]
        rfl
      · funext p; exact FS.readFile_mkdir fs0 _ p
      · intro p hp; exact FS.isDir_mkdir_ne fs0 _ p hp
    · have hpe : fs0.pathExists (expanduser home args.quar_dir) = true := by
        simp only [FS.pathExists, hq, Bool.or_true]
      refine ⟨fs0, ?_, rfl, fun p _ => rfl, hq⟩
      unfold stageOf
      rw [stageQuar_eq_of fs0 fs0 (expanduser home args.quar_dir) args.quar_dir
        args.input_path args.sig_path cIn cSig args.log_verbose []
        (by rw [hpe]; simp)
        hs.inContent hs.sigContent hq
        hs.stagedInNeIn hs.stagedInNeSig hs.stagedSigNeSig
        hs.stagedInNotDir hs.stagedSigNotDir]
      rw [hpe]
      simp only [if_true]
      rfl
  obtain ⟨fs1, hst, hrd, hdir, hqd1⟩ := heq
  refine ⟨by rw [hst], ?_, ?_, ?_, ?_, ?_⟩
  · rw [hst]
    exact FS.readFile_writeFile_self _ _ _
  · intro hne
    rw [hst]
    show ((fs1.writeFile (stagedInput args home) cIn).writeFile
      (stagedSig args home) cSig).readFile (stagedInput args home) = some cIn
    rw [FS.readFile_writeFile_ne _ _ _ _ hne]
    exact FS.readFile_writeFile_self _ _ _
  · intro p hp1 hp2
    rw [hst]
    show ((fs1.writeFile (stagedInput args home) cIn).writeFile
      (stagedSig args home) cSig).readFile p = fs0.readFile p
    rw [FS.readFile_writeFile_ne _ _ _ _ hp2, FS.readFile_writeFile_ne _ _ _ _ hp1, hrd]
  · intro p hp
    rw [hst]
    show ((fs1.writeFile (stagedInput args home) cIn).writeFile
      (stagedSig args home) cSig).isDir p = fs0.isDir p
    rw [FS.isDir_writeFile, FS.isDir_writeFile]
    exact hdir p hp
  · rw [hst]
    show ((fs1.writeFile (stagedInput args home) cIn).writeFile
      (stagedSig args home) cSig).isDir (expanduser home args.quar_dir) = true
    rw [FS.isDir_writeFile, FS.isDir_writeFile]
    exact hqd1

/-! ### Run equations for `main` -/

/-- The log records shared by every path that reaches the verification call. -/
def logToVerify (args : Args) (home : String) (fs0 : FS) : List LogEvent :=
  dbg args.log_verbose LogEvent.debugStarted
    ++ dbg args.log_verbose (LogEvent.debugGpgInit args.gpg_home)
    ++ dbg args.log_verbose (LogEvent.debugQuarSetup args.quar_dir)
    ++ (stageOf args home fs0).log
    ++ [LogEvent.infoLoading (stagedInput args home)]

/-- Engine-initialization failure: exit 1 with the filesystem untouched. -/
theorem main_init_fail (args : Args) (home : String) (fs0 : FS)
    (gi : String → Except String Unit)
    (gv : String → String → Except String VerifyResult) (msg : String)
    (hgi : gi args.gpg_home = Except.error msg) :
    main args home fs0 gi gv =
      ⟨1, fs0,
        dbg args.log_verbose LogEvent.debugStarted
          ++ dbg args.log_verbose (LogEvent.debugGpgInit args.gpg_home)
          ++ [LogEvent.errorGpgInit msg],
        [args.gpg_home], [], []⟩ := by
  unfold main
  rw [hgi]

/-- Invalid signature: exit 1 on the staged filesystem, no audit record. -/
theorem main_run_invalid (args : Args) (home : String) (fs0 : FS)
    (gi : String → Except String Unit)
    (gv : String → String → Except String VerifyResult) (r : VerifyResult)
    (hgi : gi args.gpg_home = Except.ok ())
    (hok : (stageOf args home fs0).ok = true)
    (hfile : (stageOf args home fs0).fs.isFile (stagedInput args home) = true)
    (hgv : gv (stagedInput args home) (stagedSig args home) = Except.ok r)
    (hv : r.valid = false) :
    main args home fs0 gi gv =
      ⟨1, (stageOf args home fs0).fs,
        logToVerify args home fs0
          ++ [LogEvent.infoVerifying, LogEvent.errorInvalid (stagedInput args home)],
        [args.gpg_home], [(stagedInput args home, stagedSig args home)], []⟩ := by
  unfold main
  rw [hgi]
  simp only [hok, if_true, hfile, hgv, hv, logToVerify]
  simp [List.append_assoc]

/-- Valid signature below the required trust level: exit 2 on the staged
filesystem, after the audit record. -/
theorem main_run_untrusted (args : Args) (home : String) (fs0 : FS)
    (gi : String → Except String Unit)
    (gv : String → String → Except String VerifyResult) (r : VerifyResult)
    (hgi : gi args.gpg_home = Except.ok ())
    (hok : (stageOf args home fs0).ok = true)
    (hfile : (stageOf args home fs0).fs.isFile (stagedInput args home) = true)
    (hgv : gv (stagedInput args home) (stagedSig args home) = Except.ok r)
    (hv : r.valid = true)
    (ht : r.trust_level < args.required_trust_level) :
    main args home fs0 gi gv =
      ⟨2, (stageOf args home fs0).fs,
        logToVerify args home fs0
          ++ [LogEvent.infoVerifying,
              LogEvent.infoSigned r.creation_date r.username r.key_id,
              LogEvent.errorTrust r.trust_level],
        [args.gpg_home], [(stagedInput args home, stagedSig args home)], []⟩ := by
  unfold main
  rw [hgi]
  simp only [hok, if_true, hfile, hgv, hv, logToVerify, if_pos ht]
  simp [List.append_assoc]

/-- Valid, sufficiently trusted signature with a successful finalize:
exit 0; the staged file has been moved to the output path and the staged
signature removed. -/
theorem main_run_trusted (args : Args) (home : String) (fs0 : FS)
    (gi : String → Except String Unit)
    (gv : String → String → Except String VerifyResult) (r : VerifyResult)
    (fsA fsB : FS)
    (hgi : gi args.gpg_home = Except.ok ())
    (hok : (stageOf args home fs0).ok = true)
    (hfile : (stageOf args home fs0).fs.isFile (stagedInput args home) = true)
    (hgv : gv (stagedInput args home) (stagedSig args home) = Except.ok r)
    (hv : r.valid = true)
    (ht : ¬ r.trust_level < args.required_trust_level)
    (hmove : (stageOf args home fs0).fs.move (stagedInput args home) args.output_path
      = Except.ok fsA)
    (hrem : fsA.remove (stagedSig args home) = Except.ok fsB) :
    main args home fs0 gi gv =
      ⟨0, fsB,
        logToVerify args home fs0
          ++ [LogEvent.infoVerifying,
              LogEvent.infoSigned r.creation_date r.username r.key_id]
          ++ dbg args.log_verbose (LogEvent.debugTrustLevel r.trust_level)
          ++ [LogEvent.infoMoving (stagedInput args home) args.output_path,
              LogEvent.infoSuccess args.input_path args.output_path],
        [args.gpg_home], [(stagedInput args home, stagedSig args home)],
        [(stagedInput args home, args.output_path)]⟩ := by
  unfold main
  rw [hgi]
  simp only [hok, if_true, hfile, hgv, hv, logToVerify, if_neg ht, hmove, hrem]
  simp [List.append_assoc]

/-- Inversion: exit status 2 arises in `main` only at the trust gate, i.e.
only when the engine returned a result, reported the signature valid, and
reported a trust level below the requirement.  Every other failure path
exits 1 and success exits 0. -/
theorem main_exit2_inversion (args : Args) (home : String) (fs0 : FS)
    (gi : String → Except String Unit)
    (gv : String → String → Except String VerifyResult)
    (h : (main args home fs0 gi gv).exitCode = 2) :
    ∃ r, gv (stagedInput args home) (stagedSig args home) = Except.ok r ∧
      r.valid = true ∧ r.trust_level < args.required_trust_level := by
  unfold main at h
  cases hgi : gi args.gpg_home with
  | error m => rw [hgi] at h; simp at h
  | ok u =>
      cases u
      rw [hgi] at h
      cases hok : (stageOf args home fs0).ok with
      | false => simp only [hok, Bool.false_eq_true, if_false] at h; simp at h
      | true =>
          simp only [hok, if_true] at h
          cases hfile : (stageOf args home fs0).fs.isFile (stagedInput args home) with
          | false => simp only [hfile, Bool.false_eq_true, if_false] at h; simp at h
          | true =>
              simp only [hfile, if_true] at h
              cases hgv : gv (stagedInput args home) (stagedSig args home) with
              | error m => rw [hgv] at h; simp at h
              | ok r =>
                  rw [hgv] at h
                  cases hval : r.valid with
                  | false => simp only [hval, if_true] at h; simp at h
                  | true =>
                      simp only [hval, Bool.true_eq_false, if_false] at h
                      by_cases htl : r.trust_level < args.required_trust_level
                      · exact ⟨r, rfl, hval, htl⟩
                      · rw [if_neg htl] at h
                        cases hmv : (stageOf args home fs0).fs.move
                            (stagedInput args home) args.output_path with
                        | error m => rw [hmv] at h; simp at h
                        | ok fsA =>
                            rw [hmv] at h
                            dsimp only at h
                            cases hrm : fsA.remove (stagedSig args home) with
                            | error m => rw [hrm] at h; simp at h
                            | ok fsB => rw [hrm] at h; simp at h

/-! ### Claim C5 -/

/-- C5: for every run in which initializing the crypto engine handle fails,
the program exits with code 1 having performed no filesystem side effects
beyond logging: the filesystem (hence the quarantine directory and its
contents) is exactly the initial one, and no verification or move call was
made. -/
theorem engine_init_fail_no_side_effects (args : Args) (home : String) (fs0 : FS)
    (gi : String → Except String Unit)
    (gv : String → String → Except String VerifyResult) (msg : String)
    (hgi : gi args.gpg_home = Except.error msg) :
    (main args home fs0 gi gv).exitCode = 1 ∧
    (main args home fs0 gi gv).fs = fs0 ∧
    (main args home fs0 gi gv).verifyCalls = [] ∧
    (main args home fs0 gi gv).moveCalls = [] := by
  rw [main_init_fail args home fs0 gi gv msg hgi]
  exact ⟨rfl, rfl, rfl, rfl⟩

/-- Witness for C5 at a concrete run: a failing engine constructor yields
exit 1 and an untouched filesystem. -/
theorem engine_init_fail_no_side_effects_witness :
    (main ⟨"/d/in.bin", "/d/in.sig", "/o/out.bin", 3, "/q5", "~/.gnupg", "stream", false⟩
      "/home/u" ⟨[("/d/in.bin", "A")], []⟩
      (fun _ => Except.error "keyring unreadable")
      (fun _ _ => Except.error "never called")).exitCode = 1 ∧
    (main ⟨"/d/in.bin", "/d/in.sig", "/o/out.bin", 3, "/q5", "~/.gnupg", "stream", false⟩
      "/home/u" ⟨[("/d/in.bin", "A")], []⟩
      (fun _ => Except.error "keyring unreadable")
      (fun _ _ => Except.error "never called")).fs = ⟨[("/d/in.bin", "A")], []⟩ ∧
    (main ⟨"/d/in.bin", "/d/in.sig", "/o/out.bin", 3, "/q5", "~/.gnupg", "stream", false⟩
      "/home/u" ⟨[("/d/in.bin", "A")], []⟩
      (fun _ => Except.error "keyring unreadable")
      (fun _ _ => Except.error "never called")).verifyCalls = [] ∧
    (main ⟨"/d/in.bin", "/d/in.sig", "/o/out.bin", 3, "/q5", "~/.gnupg", "stream", false⟩
      "/home/u" ⟨[("/d/in.bin", "A")], []⟩
      (fun _ => Except.error "keyring unreadable")
      (fun _ _ => Except.error "never called")).moveCalls = [] :=
  engine_init_fail_no_side_effects _ _ _ _ _ "keyring unreadable" rfl

/-! ### Claim C8 -/

/-- C8: every invocation whose `--trust-level` value is outside {2, 3, 4} is
rejected by argument parsing: the run exits (with `argparse`'s usage status
2) with the filesystem untouched, nothing logged by the pipeline, no engine
initialization, no verification call and no move call. -/
theorem bad_trust_level_rejected_early (r : RawArgs) (home : String) (fs0 : FS)
    (gi : String → Except String Unit)
    (gv : String → String → Except String VerifyResult) (t : Int)
    (ht : r.trust_level = some t) (hbad : ¬(t = 2 ∨ t = 3 ∨ t = 4)) :
    program r home fs0 gi gv = ⟨2, fs0, [], [], [], []⟩ := by
  have hp : parse_args r = none := by
    unfold parse_args
    rcases r with ⟨oi, os, oo, ot, oq, og, ol, ov⟩
    simp only at ht
    subst ht
    cases oi with
    | none => rfl
    | some i =>
        cases os with
        | none => rfl
        | some s =>
            cases oo with
            | none => rfl
            | some o =>
                simp only [Option.getD]
                rw [if_neg]
                intro hc
                exact hbad hc.1
  unfold program
  rw [hp]

/-- Witness for C8: `--trust-level 5` is rejected before any work happens. -/
theorem bad_trust_level_rejected_early_witness :
    program ⟨some "/d/in.bin", some "/d/in.sig", some "/o/out.bin", some 5,
        none, none, none, false⟩
      "/home/u" ⟨[("/d/in.bin", "A")], ["/q8"]⟩
      (fun _ => Except.ok ()) (fun _ _ => Except.error "never called")
      = ⟨2, ⟨[("/d/in.bin", "A")], ["/q8"]⟩, [], [], [], []⟩ :=
  bad_trust_level_rejected_early _ _ _ _ _ 5 rfl (by decide)

/-! ### Claim C6 -/

/-- Counterexample to C6 as stated: `syslog` is an argparse-valid log
destination (the invocation parses), yet logging setup does not install a
handler and the run does not proceed to the pipeline stages — line 113
evaluates `logging.handlers`, a submodule the script never imports, so the
branch dies with an uncaught `AttributeError` and the whole run exits with
the filesystem untouched and no engine-initialization, verification or move
call made. -/
theorem syslog_destination_crashes_counterexample :
    parse_args ⟨some "/i6c", some "/s6c", some "/o6c", none, none, none,
        some "syslog", false⟩
      = some ⟨"/i6c", "/s6c", "/o6c", 3, "~/pgp-cp_quar", "~/.gnupg", "syslog", false⟩ ∧
    log_init "syslog" = Except.error LogInitError.attributeMissing ∧
    program ⟨some "/i6c", some "/s6c", some "/o6c", none, none, none,
        some "syslog", false⟩
      "/h6c" ⟨[("/i6c", "A")], []⟩ (fun _ => Except.ok ())
      (fun _ _ => Except.error "never called")
      = ⟨1, ⟨[("/i6c", "A")], []⟩, [], [], [], []⟩ :=
  ⟨by decide, rfl, by decide⟩

/-- C6 (amended): of the three argparse-valid log destinations, `stream`
and `none` make logging setup succeed and install the corresponding handler
(console stream, discarding handler), after which the run proceeds to the
pipeline stages; `syslog`, though accepted by argument parsing, crashes
logging setup with an uncaught `AttributeError` (`logging.handlers` is
never imported), so the run exits before any pipeline stage. -/
theorem log_destinations_amended :
    log_init "stream" = Except.ok LogHandler.stream ∧
    log_init "none" = Except.ok LogHandler.nullHandler ∧
    log_init "syslog" = Except.error LogInitError.attributeMissing ∧
    (∀ (r : RawArgs) (args : Args), parse_args r = some args →
      ∀ (home : String) (fs0 : FS) (gi : String → Except String Unit)
        (gv : String → String → Except String VerifyResult),
        (args.log_dest ≠ "syslog" →
          program r home fs0 gi gv = main args home fs0 gi gv) ∧
        (args.log_dest = "syslog" →
          program r home fs0 gi gv = ⟨1, fs0, [], [], [], []⟩)) := by
  refine ⟨rfl, rfl, rfl, ?_⟩
  intro r args hp
  have hp2 := hp
  have hl : args.log_dest = "stream" ∨ args.log_dest = "syslog" ∨
      args.log_dest = "none" := by
    unfold parse_args at hp
    rcases r with ⟨oi, os, oo, ot, oq, og, ol, ov⟩
    cases oi with
    | none => exact absurd hp (by simp)
    | some i =>
        cases os with
        | none => exact absurd hp (by simp)
        | some s =>
            cases oo with
            | none => exact absurd hp (by simp)
            | some o =>
                simp only [Option.getD] at hp
                split at hp
                · cases hp
                  rename_i hcond
                  exact hcond.2
                · exact absurd hp (by simp)
  intro home fs0 gi gv
  constructor
  · intro hns
    have hok : ∃ hd, log_init args.log_dest = Except.ok hd := by
      rcases hl with h | h | h
      · exact ⟨LogHandler.stream, by rw [h]; rfl⟩
      · exact absurd h hns
      · exact ⟨LogHandler.nullHandler, by rw [h]; rfl⟩
    obtain ⟨hdl, hld⟩ := hok
    unfold program
    rw [hp2]
    dsimp only
    rw [hld]
  · intro hsys
    unfold program
    rw [hp2]
    dsimp only
    rw [hsys]
    rfl

/-- Witness for the amended C6: a parsed `--log-dest none` invocation
proceeds into the pipeline, and a parsed `--log-dest syslog` invocation
dies during logging setup with nothing else done. -/
theorem log_destinations_amended_witness :
    (program ⟨some "/i6w", some "/s6w", some "/o6w", none, none, none,
        some "none", false⟩
      "/h6w" ⟨[], []⟩ (fun _ => Except.error "e") (fun _ _ => Except.error "e")
      = main ⟨"/i6w", "/s6w", "/o6w", 3, "~/pgp-cp_quar", "~/.gnupg", "none", false⟩
        "/h6w" ⟨[], []⟩ (fun _ => Except.error "e") (fun _ _ => Except.error "e")) ∧
    (program ⟨some "/i6w", some "/s6w", some "/o6w", none, none, none,
        some "syslog", false⟩
      "/h6w" ⟨[], []⟩ (fun _ => Except.error "e") (fun _ _ => Except.error "e")
      = ⟨1, ⟨[], []⟩, [], [], [], []⟩) :=
  ⟨(log_destinations_amended.2.2.2
      ⟨some "/i6w", some "/s6w", some "/o6w", none, none, none, some "none", false⟩
      ⟨"/i6w", "/s6w", "/o6w", 3, "~/pgp-cp_quar", "~/.gnupg", "none", false⟩
      (by decide) "/h6w" ⟨[], []⟩ _ _).1 (by decide),
   (log_destinations_amended.2.2.2
      ⟨some "/i6w", some "/s6w", some "/o6w", none, none, none, some "syslog", false⟩
      ⟨"/i6w", "/s6w", "/o6w", 3, "~/pgp-cp_quar", "~/.gnupg", "syslog", false⟩
      (by decide) "/h6w" ⟨[], []⟩ _ _).2 rfl⟩

/-! ### Path lemmas -/

theorem str_data_append (a b : String) : (a ++ b).data = a.data ++ b.data := by
  cases a; cases b; rfl

theorem slash_not_mem_foldl (l : List Char) : ∀ acc : List Char, '/' ∉ acc →
    '/' ∉ l.foldl (fun acc c => if c = '/' then [] else acc ++ [c]) acc := by
  induction l with
  | nil => intro acc h; simpa using h
  | cons c rest ih =>
      intro acc h
      by_cases hc : c = '/'
      · simp only [List.foldl, if_pos hc]
        exact ih [] (by simp)
      · simp only [List.foldl, if_neg hc]
        refine ih (acc ++ [c]) ?_
        intro hmem
        rcases List.mem_append.1 hmem with h1 | h1
        · exact h h1
        · rw [List.mem_singleton] at h1
          exact hc h1.symm

theorem slash_not_mem_basenameList (l : List Char) : '/' ∉ basenameList l :=
  slash_not_mem_foldl l [] (by simp)

/-- A basename never begins with a slash: it is the segment after the last
slash of the path. -/
theorem strHeadIsSlash_basename (p : String) :
    strHeadIsSlash (basename p) = false := by
  unfold strHeadIsSlash basename
  have hmem := slash_not_mem_basenameList p.data
  cases hl : basenameList p.data with
  | nil => rfl
  | cons c rest =>
      rw [hl] at hmem
      simp only []
      refine decide_eq_false ?_
      intro hc
      exact hmem (by rw [hc]; exact List.mem_cons_self '/' rest)

/-- On a nonempty directory path not ending in a slash, `os.path.join` with
a relative component is plain concatenation with a separator. -/
theorem joinPath_eq_concat (a b : String) (ha : a ≠ "")
    (ha2 : strLastIsSlash a = false) (hb : strHeadIsSlash b = false) :
    joinPath a b = a ++ "/" ++ b := by
  unfold joinPath
  rw [hb]
  simp only [Bool.false_eq_true, if_false]
  rw [if_neg]
  intro hc
  rcases hc with hc | hc
  · exact ha hc
  · rw [ha2] at hc
    exact Bool.false_ne_true hc

/-- The character-list view of a staged path. -/
theorem staged_data (qd b : String) (hqd : qd ≠ "")
    (hqd2 : strLastIsSlash qd = false) (hb : strHeadIsSlash b = false) :
    (joinPath qd b).data = qd.data ++ '/' :: b.data := by
  rw [joinPath_eq_concat qd b hqd hqd2 hb, str_data_append, str_data_append]
  simp

/-! ### Call traces of `main` -/

/-- Whatever the oracles and the filesystem do, the verification call (when
made) receives exactly the two staged paths, and the move call (when made)
has the staged input path as its source. -/
theorem main_calls_shape (args : Args) (home : String) (fs0 : FS)
    (gi : String → Except String Unit)
    (gv : String → String → Except String VerifyResult) :
    ((main args home fs0 gi gv).verifyCalls = [] ∨
     (main args home fs0 gi gv).verifyCalls
       = [(stagedInput args home, stagedSig args home)]) ∧
    ((main args home fs0 gi gv).moveCalls = [] ∨
     (main args home fs0 gi gv).moveCalls
       = [(stagedInput args home, args.output_path)]) := by
  unfold main
  cases hgi : gi args.gpg_home with
  | error m => exact ⟨Or.inl rfl, Or.inl rfl⟩
  | ok u =>
      cases u
      by_cases hok : (stageOf args home fs0).ok = true
      · by_cases hfl : (stageOf args home fs0).fs.isFile (stagedInput args home) = true
        · simp only [hok, hfl, if_true]
          cases hgv : gv (stagedInput args home) (stagedSig args home) with
          | error m => exact ⟨Or.inr rfl, Or.inl rfl⟩
          | ok r =>
              dsimp only
              by_cases hval : r.valid = false
              · rw [if_pos hval]
                exact ⟨Or.inr rfl, Or.inl rfl⟩
              · rw [if_neg hval]
                by_cases htl : r.trust_level < args.required_trust_level
                · rw [if_pos htl]
                  exact ⟨Or.inr rfl, Or.inl rfl⟩
                · rw [if_neg htl]
                  cases hmv : (stageOf args home fs0).fs.move (stagedInput args home)
                      args.output_path with
                  | error m => exact ⟨Or.inr rfl, Or.inr rfl⟩
                  | ok fsA =>
                      dsimp only
                      cases hrm : fsA.remove (stagedSig args home) with
                      | error m => exact ⟨Or.inr rfl, Or.inr rfl⟩
                      | ok fsB => exact ⟨Or.inr rfl, Or.inr rfl⟩
        · simp [hok, hfl]
      · simp [hok]

/-- Once the run reaches the verification step, the verification call trace
is exactly one call on the staged paths. -/
theorem main_verifyCalls_eq (args : Args) (home : String) (fs0 : FS)
    (gi : String → Except String Unit)
    (gv : String → String → Except String VerifyResult)
    (hgi : gi args.gpg_home = Except.ok ())
    (hok : (stageOf args home fs0).ok = true)
    (hfile : (stageOf args home fs0).fs.isFile (stagedInput args home) = true) :
    (main args home fs0 gi gv).verifyCalls
      = [(stagedInput args home, stagedSig args home)] := by
  unfold main
  rw [hgi]
  simp only [hok, hfile, if_true]
  cases hgv : gv (stagedInput args home) (stagedSig args home) with
  | error m => rfl
  | ok r =>
      dsimp only
      by_cases hval : r.valid = false
      · rw [if_pos hval]
      · rw [if_neg hval]
        by_cases htl : r.trust_level < args.required_trust_level
        · rw [if_pos htl]
        · rw [if_neg htl]
          cases hmv : (stageOf args home fs0).fs.move (stagedInput args home)
              args.output_path with
          | error m => rfl
          | ok fsA =>
              dsimp only
              cases hrm : fsA.remove (stagedSig args home) with
              | error m => rfl
              | ok fsB => rfl

/-! ### Claim C7 -/

/-- C7: for every run past argument parsing, the verification call and the
final move operate only on the staged copies inside the quarantine
directory: every verification call receives exactly the two staged paths and
every move call's source is the staged input path; provided the
caller-supplied input and signature paths do not themselves point into the
quarantine directory, these paths differ from both caller-supplied paths.
(The move's destination is the requested output path, which is not a staged
source.) -/
theorem verify_and_move_use_staged_paths (args : Args) (home : String) (fs0 : FS)
    (gi : String → Except String Unit)
    (gv : String → String → Except String VerifyResult)
    (hq1 : expanduser home args.quar_dir ≠ "")
    (hq2 : strLastIsSlash (expanduser home args.quar_dir) = false)
    (hin : ∀ bl : List Char,
      args.input_path.data ≠ (expanduser home args.quar_dir).data ++ '/' :: bl)
    (hsg : ∀ bl : List Char,
      args.sig_path.data ≠ (expanduser home args.quar_dir).data ++ '/' :: bl) :
    (∀ c ∈ (main args home fs0 gi gv).verifyCalls,
      c = (stagedInput args home, stagedSig args home) ∧
      c.1 ≠ args.input_path ∧ c.1 ≠ args.sig_path ∧
      c.2 ≠ args.input_path ∧ c.2 ≠ args.sig_path) ∧
    (∀ m ∈ (main args home fs0 gi gv).moveCalls,
      m.1 = stagedInput args home ∧
      m.1 ≠ args.input_path ∧ m.1 ≠ args.sig_path) := by
  have dIn : (stagedInput args home).data
      = (expanduser home args.quar_dir).data ++ '/' :: (basename args.input_path).data :=
    staged_data (expanduser home args.quar_dir) (basename args.input_path)
      hq1 hq2 (strHeadIsSlash_basename args.input_path)
  have dSig : (stagedSig args home).data
      = (expanduser home args.quar_dir).data ++ '/' :: (basename args.sig_path).data :=
    staged_data (expanduser home args.quar_dir) (basename args.sig_path)
      hq1 hq2 (strHeadIsSlash_basename args.sig_path)
  have neInIn : stagedInput args home ≠ args.input_path := by
    intro h
    have hd := dIn
    rw [h] at hd
    exact hin (basename args.input_path).data hd
  have neInSig : stagedInput args home ≠ args.sig_path := by
    intro h
    have hd := dIn
    rw [h] at hd
    exact hsg (basename args.input_path).data hd
  have neSigIn : stagedSig args home ≠ args.input_path := by
    intro h
    have hd := dSig
    rw [h] at hd
    exact hin (basename args.sig_path).data hd
  have neSigSig : stagedSig args home ≠ args.sig_path := by
    intro h
    have hd := dSig
    rw [h] at hd
    exact hsg (basename args.sig_path).data hd
  obtain ⟨hvc, hmc⟩ := main_calls_shape args home fs0 gi gv
  constructor
  · intro c hc
    rcases hvc with hv | hv
    · rw [hv] at hc
      exact absurd hc (List.not_mem_nil c)
    · rw [hv, List.mem_singleton] at hc
      subst hc
      exact ⟨rfl, neInIn, neInSig, neSigIn, neSigSig⟩
  · intro m hm
    rcases hmc with h | h
    · rw [h] at hm
      exact absurd hm (List.not_mem_nil m)
    · rw [h, List.mem_singleton] at hm
      subst hm
      exact ⟨rfl, neInIn, neInSig⟩

/-- Witness for C7 on a concrete accepted run (the verification and move
traces are nonempty and consist of the staged paths only). -/
theorem verify_and_move_use_staged_paths_witness :
    (∀ c ∈ (main ⟨"data/in.bin", "data/in.sig", "/out/o7.bin", 3, "/q7", "~/.gnupg",
        "stream", false⟩ "/h7"
        ⟨[("data/in.bin", "A"), ("data/in.sig", "B")], ["/q7"]⟩
        (fun _ => Except.ok ())
        (fun _ _ => Except.ok ⟨true, "2020", "signer", "KEY", 4⟩)).verifyCalls,
      c = (stagedInput ⟨"data/in.bin", "data/in.sig", "/out/o7.bin", 3, "/q7", "~/.gnupg",
        "stream", false⟩ "/h7",
        stagedSig ⟨"data/in.bin", "data/in.sig", "/out/o7.bin", 3, "/q7", "~/.gnupg",
        "stream", false⟩ "/h7") ∧
      c.1 ≠ "data/in.bin" ∧ c.1 ≠ "data/in.sig" ∧
      c.2 ≠ "data/in.bin" ∧ c.2 ≠ "data/in.sig") ∧
    (∀ m ∈ (main ⟨"data/in.bin", "data/in.sig", "/out/o7.bin", 3, "/q7", "~/.gnupg",
        "stream", false⟩ "/h7"
        ⟨[("data/in.bin", "A"), ("data/in.sig", "B")], ["/q7"]⟩
        (fun _ => Except.ok ())
        (fun _ _ => Except.ok ⟨true, "2020", "signer", "KEY", 4⟩)).moveCalls,
      m.1 = stagedInput ⟨"data/in.bin", "data/in.sig", "/out/o7.bin", 3, "/q7", "~/.gnupg",
        "stream", false⟩ "/h7" ∧
      m.1 ≠ "data/in.bin" ∧ m.1 ≠ "data/in.sig") :=
  verify_and_move_use_staged_paths _ _ _ _ _ (by decide) (by decide)
    (by intro bl h
        injection h with h1 _
        exact absurd h1 (by decide))
    (by intro bl h
        injection h with h1 _
        exact absurd h1 (by decide))

/-! ### Claim C9 -/

/-- C9: when the caller-supplied input path and signature path share a
basename, the two staged paths coincide: the second `shutil.copy` overwrites
the first, the single staged file holds the signature bytes, and the
verification call receives that one path for both the file and its
signature — it checks the signature file against itself. -/
theorem same_basename_collision (args : Args) (home : String) (fs0 : FS)
    (gi : String → Except String Unit)
    (gv : String → String → Except String VerifyResult) (cIn cSig : String)
    (hs : StageOK args home fs0 cIn cSig)
    (hb : basename args.input_path = basename args.sig_path)
    (hgi : gi args.gpg_home = Except.ok ()) :
    stagedInput args home = stagedSig args home ∧
    (stageOf args home fs0).fs.readFile (stagedInput args home) = some cSig ∧
    (main args home fs0 gi gv).verifyCalls
      = [(stagedInput args home, stagedInput args home)] := by
  have hcol : stagedInput args home = stagedSig args home := by
    unfold stagedInput stagedSig
    rw [hb]
  have spec := stageQuar_spec args home fs0 cIn cSig hs
  have hread : (stageOf args home fs0).fs.readFile (stagedInput args home) = some cSig := by
    rw [hcol]
    exact spec.2.1
  have hfile := FS.isFile_of_readFile _ _ _ hread
  have hcalls := main_verifyCalls_eq args home fs0 gi gv hgi spec.1 hfile
  rw [← hcol] at hcalls
  exact ⟨hcol, hread, hcalls⟩

/-- Witness for C9: `/a/f.bin` and `/b/f.bin` collide in quarantine `/q9`;
the staged file holds the signature file's bytes and verification is called
on that single path twice. -/
theorem same_basename_collision_witness :
    stagedInput ⟨"/a/f.bin", "/b/f.bin", "/out/o9.bin", 3, "/q9", "~/.gnupg",
        "stream", false⟩ "/h9"
      = stagedSig ⟨"/a/f.bin", "/b/f.bin", "/out/o9.bin", 3, "/q9", "~/.gnupg",
        "stream", false⟩ "/h9" ∧
    (stageOf ⟨"/a/f.bin", "/b/f.bin", "/out/o9.bin", 3, "/q9", "~/.gnupg",
        "stream", false⟩ "/h9"
      ⟨[("/a/f.bin", "IN"), ("/b/f.bin", "SG")], ["/q9"]⟩).fs.readFile
      (stagedInput ⟨"/a/f.bin", "/b/f.bin", "/out/o9.bin", 3, "/q9", "~/.gnupg",
        "stream", false⟩ "/h9") = some "SG" ∧
    (main ⟨"/a/f.bin", "/b/f.bin", "/out/o9.bin", 3, "/q9", "~/.gnupg",
        "stream", false⟩ "/h9"
      ⟨[("/a/f.bin", "IN"), ("/b/f.bin", "SG")], ["/q9"]⟩
      (fun _ => Except.ok ())
      (fun _ _ => Except.ok ⟨true, "2020", "signer", "KEY", 4⟩)).verifyCalls
      = [(stagedInput ⟨"/a/f.bin", "/b/f.bin", "/out/o9.bin", 3, "/q9", "~/.gnupg",
          "stream", false⟩ "/h9",
          stagedInput ⟨"/a/f.bin", "/b/f.bin", "/out/o9.bin", 3, "/q9", "~/.gnupg",
          "stream", false⟩ "/h9")] :=
  same_basename_collision _ _ _ _ _ "IN" "SG"
    ⟨rfl, rfl, Or.inr rfl, by decide, by decide, by decide, rfl, rfl,
      by decide, by decide⟩
    (by decide) rfl

/-! ### Finalize-step lemmas -/

/-- Moving (`shutil.move`) an existing regular file onto a non-directory target
path silently overwrites it. -/
theorem FS.move_to_file (fs : FS) (src dst c : String)
    (h : fs.readFile src = some c) (hd : fs.isDir dst = false) :
    fs.move src dst = Except.ok ((fs.removeFile src).writeFile dst c) := by
  unfold FS.move
  rw [h]
  dsimp only
  rw [hd]
  simp

/-- Removal (`os.remove`) of an existing regular file succeeds. -/
theorem FS.remove_ok (fs : FS) (p c : String) (h : fs.readFile p = some c) :
    fs.remove p = Except.ok (fs.removeFile p) := by
  unfold FS.remove
  rw [if_pos (FS.isFile_of_readFile fs p c h)]

/-! ### Claim C1 -/

/-- C1: for every run in which the engine reports the signature valid with
`trust_level ≥ required_trust_level` (on a run configuration without staged
path collisions), the program exits 0, the output file exists at the
requested output path holding exactly the original input file's bytes, and
the staged signature copy no longer exists in the quarantine directory. -/
theorem trusted_run_copies_file (args : Args) (home : String) (fs0 : FS)
    (gi : String → Except String Unit)
    (gv : String → String → Except String VerifyResult) (r : VerifyResult)
    (cIn cSig : String)
    (hs : StageOK args home fs0 cIn cSig)
    (hcol : stagedInput args home ≠ stagedSig args home)
    (hgi : gi args.gpg_home = Except.ok ())
    (hgv : gv (stagedInput args home) (stagedSig args home) = Except.ok r)
    (hv : r.valid = true)
    (ht : ¬ r.trust_level < args.required_trust_level)
    (hod : fs0.isDir args.output_path = false)
    (hoq : args.output_path ≠ expanduser home args.quar_dir)
    (hos : args.output_path ≠ stagedSig args home) :
    (main args home fs0 gi gv).exitCode = 0 ∧
    fs0.readFile args.input_path = some cIn ∧
    (main args home fs0 gi gv).fs.readFile args.output_path = some cIn ∧
    (main args home fs0 gi gv).fs.isFile (stagedSig args home) = false := by
  have spec := stageQuar_spec args home fs0 cIn cSig hs
  have hin : (stageOf args home fs0).fs.readFile (stagedInput args home) = some cIn :=
    spec.2.2.1 hcol
  have hsig : (stageOf args home fs0).fs.readFile (stagedSig args home) = some cSig :=
    spec.2.1
  have hfile := FS.isFile_of_readFile _ _ _ hin
  have hodst : (stageOf args home fs0).fs.isDir args.output_path = false := by
    rw [spec.2.2.2.2.1 args.output_path hoq]
    exact hod
  have hmove := FS.move_to_file (stageOf args home fs0).fs (stagedInput args home)
    args.output_path cIn hin hodst
  have hsigA : (((stageOf args home fs0).fs.removeFile (stagedInput args home)).writeFile
      args.output_path cIn).readFile (stagedSig args home) = some cSig := by
    rw [FS.readFile_writeFile_ne _ _ _ _ (Ne.symm hos)]
    rw [FS.readFile_removeFile_ne _ _ _ (Ne.symm hcol)]
    exact hsig
  have hrem := FS.remove_ok _ (stagedSig args home) cSig hsigA
  have heq := main_run_trusted args home fs0 gi gv r _ _ hgi spec.1 hfile hgv hv ht
    hmove hrem
  refine ⟨by rw [heq], hs.inContent, ?_, ?_⟩
  · rw [heq]
    show ((((stageOf args home fs0).fs.removeFile (stagedInput args home)).writeFile
      args.output_path cIn).removeFile (stagedSig args home)).readFile args.output_path
      = some cIn
    rw [FS.readFile_removeFile_ne _ _ _ hos]
    exact FS.readFile_writeFile_self _ _ _
  · rw [heq]
    show (((((stageOf args home fs0).fs.removeFile (stagedInput args home)).writeFile
      args.output_path cIn).removeFile (stagedSig args home)).readFile
      (stagedSig args home)).isSome = false
    rw [FS.readFile_removeFile_self]
    rfl

/-- Witness for C1 on a concrete accepted run. -/
theorem trusted_run_copies_file_witness :
    (main ⟨"/d1/in.bin", "/d1/in.sig", "/o1/out.bin", 3, "/q1", "~/.gnupg", "stream", false⟩
      "/h1" ⟨[("/d1/in.bin", "INPUT"), ("/d1/in.sig", "SIG")], ["/q1"]⟩
      (fun _ => Except.ok ())
      (fun _ _ => Except.ok ⟨true, "2020", "signer", "KEY", 3⟩)).exitCode = 0 ∧
    (FS.readFile ⟨[("/d1/in.bin", "INPUT"), ("/d1/in.sig", "SIG")], ["/q1"]⟩ "/d1/in.bin")
      = some "INPUT" ∧
    (main ⟨"/d1/in.bin", "/d1/in.sig", "/o1/out.bin", 3, "/q1", "~/.gnupg", "stream", false⟩
      "/h1" ⟨[("/d1/in.bin", "INPUT"), ("/d1/in.sig", "SIG")], ["/q1"]⟩
      (fun _ => Except.ok ())
      (fun _ _ => Except.ok ⟨true, "2020", "signer", "KEY", 3⟩)).fs.readFile "/o1/out.bin"
      = some "INPUT" ∧
    (main ⟨"/d1/in.bin", "/d1/in.sig", "/o1/out.bin", 3, "/q1", "~/.gnupg", "stream", false⟩
      "/h1" ⟨[("/d1/in.bin", "INPUT"), ("/d1/in.sig", "SIG")], ["/q1"]⟩
      (fun _ => Except.ok ())
      (fun _ _ => Except.ok ⟨true, "2020", "signer", "KEY", 3⟩)).fs.isFile
      (stagedSig ⟨"/d1/in.bin", "/d1/in.sig", "/o1/out.bin", 3, "/q1", "~/.gnupg",
        "stream", false⟩ "/h1") = false :=
  trusted_run_copies_file _ _ _ _ _ ⟨true, "2020", "signer", "KEY", 3⟩ "INPUT" "SIG"
    ⟨rfl, rfl, Or.inr rfl, by decide, by decide, by decide, rfl, rfl,
      by decide, by decide⟩
    (by decide) rfl rfl rfl (by decide) rfl (by decide) (by decide)

/-! ### Claim C2 -/

/-- C2: for every run in which the engine reports the signature valid but
the reported trust level is strictly below the requirement, the program
exits with code 2, the output path is untouched (so no output file is
created), and 2 is reserved for this outcome: in every run of the pipeline,
exit code 2 occurs only when the engine returned a result reporting a valid
signature whose trust level is below the requirement. -/
theorem untrusted_sig_exits_two (args : Args) (home : String) (fs0 : FS)
    (gi : String → Except String Unit)
    (gv : String → String → Except String VerifyResult) (r : VerifyResult)
    (cIn cSig : String)
    (hs : StageOK args home fs0 cIn cSig)
    (hgi : gi args.gpg_home = Except.ok ())
    (hgv : gv (stagedInput args home) (stagedSig args home) = Except.ok r)
    (hv : r.valid = true)
    (ht : r.trust_level < args.required_trust_level)
    (ho1 : args.output_path ≠ stagedInput args home)
    (ho2 : args.output_path ≠ stagedSig args home) :
    (main args home fs0 gi gv).exitCode = 2 ∧
    (main args home fs0 gi gv).fs.readFile args.output_path
      = fs0.readFile args.output_path ∧
    (fs0.isFile args.output_path = false →
      (main args home fs0 gi gv).fs.isFile args.output_path = false) ∧
    (∀ (args2 : Args) (home2 : String) (fs2 : FS)
        (gi2 : String → Except String Unit)
        (gv2 : String → String → Except String VerifyResult),
      (main args2 home2 fs2 gi2 gv2).exitCode = 2 →
      ∃ r2, gv2 (stagedInput args2 home2) (stagedSig args2 home2) = Except.ok r2 ∧
        r2.valid = true ∧ r2.trust_level < args2.required_trust_level) := by
  have spec := stageQuar_spec args home fs0 cIn cSig hs
  have hfile : (stageOf args home fs0).fs.isFile (stagedInput args home) = true := by
    by_cases hcol : stagedInput args home = stagedSig args home
    · refine FS.isFile_of_readFile _ _ cSig ?_
      rw [hcol]
      exact spec.2.1
    · exact FS.isFile_of_readFile _ _ cIn (spec.2.2.1 hcol)
  have heq := main_run_untrusted args home fs0 gi gv r hgi spec.1 hfile hgv hv ht
  have hfr : (main args home fs0 gi gv).fs.readFile args.output_path
      = fs0.readFile args.output_path := by
    rw [heq]
    exact spec.2.2.2.1 args.output_path ho1 ho2
  refine ⟨by rw [heq], hfr, ?_, main_exit2_inversion⟩
  intro h0
  unfold FS.isFile
  rw [hfr]
  exact h0

/-- Witness for C2 on a concrete marginally-trusted run (trust 2 against a
requirement of 3). -/
theorem untrusted_sig_exits_two_witness :
    (main ⟨"/d2/in.bin", "/d2/in.sig", "/o2/out.bin", 3, "/q2", "~/.gnupg", "stream", false⟩
      "/h2" ⟨[("/d2/in.bin", "INPUT"), ("/d2/in.sig", "SIG")], ["/q2"]⟩
      (fun _ => Except.ok ())
      (fun _ _ => Except.ok ⟨true, "2020", "signer", "KEY", 2⟩)).exitCode = 2 ∧
    (main ⟨"/d2/in.bin", "/d2/in.sig", "/o2/out.bin", 3, "/q2", "~/.gnupg", "stream", false⟩
      "/h2" ⟨[("/d2/in.bin", "INPUT"), ("/d2/in.sig", "SIG")], ["/q2"]⟩
      (fun _ => Except.ok ())
      (fun _ _ => Except.ok ⟨true, "2020", "signer", "KEY", 2⟩)).fs.readFile "/o2/out.bin"
      = FS.readFile ⟨[("/d2/in.bin", "INPUT"), ("/d2/in.sig", "SIG")], ["/q2"]⟩ "/o2/out.bin" ∧
    (FS.isFile ⟨[("/d2/in.bin", "INPUT"), ("/d2/in.sig", "SIG")], ["/q2"]⟩ "/o2/out.bin" = false →
      (main ⟨"/d2/in.bin", "/d2/in.sig", "/o2/out.bin", 3, "/q2", "~/.gnupg", "stream", false⟩
        "/h2" ⟨[("/d2/in.bin", "INPUT"), ("/d2/in.sig", "SIG")], ["/q2"]⟩
        (fun _ => Except.ok ())
        (fun _ _ => Except.ok ⟨true, "2020", "signer", "KEY", 2⟩)).fs.isFile "/o2/out.bin"
        = false) ∧
    (∀ (args2 : Args) (home2 : String) (fs2 : FS)
        (gi2 : String → Except String Unit)
        (gv2 : String → String → Except String VerifyResult),
      (main args2 home2 fs2 gi2 gv2).exitCode = 2 →
      ∃ r2, gv2 (stagedInput args2 home2) (stagedSig args2 home2) = Except.ok r2 ∧
        r2.valid = true ∧ r2.trust_level < args2.required_trust_level) :=
  untrusted_sig_exits_two _ _ _ _ _ ⟨true, "2020", "signer", "KEY", 2⟩ "INPUT" "SIG"
    ⟨rfl, rfl, Or.inr rfl, by decide, by decide, by decide, rfl, rfl,
      by decide, by decide⟩
    rfl rfl rfl (by decide) (by decide) (by decide)

/-! ### Claim C3 -/

/-- C3: for every run in which the engine reports the signature invalid, the
program exits with code 1 and the output path is untouched (no output file
is created). -/
theorem invalid_sig_exits_one (args : Args) (home : String) (fs0 : FS)
    (gi : String → Except String Unit)
    (gv : String → String → Except String VerifyResult) (r : VerifyResult)
    (cIn cSig : String)
    (hs : StageOK args home fs0 cIn cSig)
    (hgi : gi args.gpg_home = Except.ok ())
    (hgv : gv (stagedInput args home) (stagedSig args home) = Except.ok r)
    (hv : r.valid = false)
    (ho1 : args.output_path ≠ stagedInput args home)
    (ho2 : args.output_path ≠ stagedSig args home) :
    (main args home fs0 gi gv).exitCode = 1 ∧
    (main args home fs0 gi gv).fs.readFile args.output_path
      = fs0.readFile args.output_path ∧
    (fs0.isFile args.output_path = false →
      (main args home fs0 gi gv).fs.isFile args.output_path = false) := by
  have spec := stageQuar_spec args home fs0 cIn cSig hs
  have hfile : (stageOf args home fs0).fs.isFile (stagedInput args home) = true := by
    by_cases hcol : stagedInput args home = stagedSig args home
    · refine FS.isFile_of_readFile _ _ cSig ?_
      rw [hcol]
      exact spec.2.1
    · exact FS.isFile_of_readFile _ _ cIn (spec.2.2.1 hcol)
  have heq := main_run_invalid args home fs0 gi gv r hgi spec.1 hfile hgv hv
  have hfr : (main args home fs0 gi gv).fs.readFile args.output_path
      = fs0.readFile args.output_path := by
    rw [heq]
    exact spec.2.2.2.1 args.output_path ho1 ho2
  refine ⟨by rw [heq], hfr, ?_⟩
  intro h0
  unfold FS.isFile
  rw [hfr]
  exact h0

/-- Witness for C3 on a concrete invalid-signature run. -/
theorem invalid_sig_exits_one_witness :
    (main ⟨"/d3/in.bin", "/d3/in.sig", "/o3/out.bin", 3, "/q3", "~/.gnupg", "stream", false⟩
      "/h3" ⟨[("/d3/in.bin", "INPUT"), ("/d3/in.sig", "SIG")], ["/q3"]⟩
      (fun _ => Except.ok ())
      (fun _ _ => Except.ok ⟨false, "2020", "signer", "KEY", 4⟩)).exitCode = 1 ∧
    (main ⟨"/d3/in.bin", "/d3/in.sig", "/o3/out.bin", 3, "/q3", "~/.gnupg", "stream", false⟩
      "/h3" ⟨[("/d3/in.bin", "INPUT"), ("/d3/in.sig", "SIG")], ["/q3"]⟩
      (fun _ => Except.ok ())
      (fun _ _ => Except.ok ⟨false, "2020", "signer", "KEY", 4⟩)).fs.readFile "/o3/out.bin"
      = FS.readFile ⟨[("/d3/in.bin", "INPUT"), ("/d3/in.sig", "SIG")], ["/q3"]⟩ "/o3/out.bin" ∧
    (FS.isFile ⟨[("/d3/in.bin", "INPUT"), ("/d3/in.sig", "SIG")], ["/q3"]⟩ "/o3/out.bin" = false →
      (main ⟨"/d3/in.bin", "/d3/in.sig", "/o3/out.bin", 3, "/q3", "~/.gnupg", "stream", false⟩
        "/h3" ⟨[("/d3/in.bin", "INPUT"), ("/d3/in.sig", "SIG")], ["/q3"]⟩
        (fun _ => Except.ok ())
        (fun _ _ => Except.ok ⟨false, "2020", "signer", "KEY", 4⟩)).fs.isFile "/o3/out.bin"
        = false) :=
  invalid_sig_exits_one _ _ _ _ _ ⟨false, "2020", "signer", "KEY", 4⟩ "INPUT" "SIG"
    ⟨rfl, rfl, Or.inr rfl, by decide, by decide, by decide, rfl, rfl,
      by decide, by decide⟩
    rfl rfl rfl (by decide) (by decide)

/-! ### Claim C10 -/

/-- C10: for every run rejected at the trust gate — exit 1 for an invalid
signature or exit 2 for insufficient trust — the staged copies of both the
input file and the signature remain in the quarantine directory with their
staged contents: no cleanup of staged files happens on rejection. -/
theorem rejected_run_keeps_staged_copies (args : Args) (home : String) (fs0 : FS)
    (gi : String → Except String Unit)
    (gv : String → String → Except String VerifyResult) (r : VerifyResult)
    (cIn cSig : String)
    (hs : StageOK args home fs0 cIn cSig)
    (hcol : stagedInput args home ≠ stagedSig args home)
    (hgi : gi args.gpg_home = Except.ok ())
    (hgv : gv (stagedInput args home) (stagedSig args home) = Except.ok r)
    (hrej : r.valid = false ∨
      (r.valid = true ∧ r.trust_level < args.required_trust_level)) :
    ((r.valid = false → (main args home fs0 gi gv).exitCode = 1) ∧
     (r.valid = true → (main args home fs0 gi gv).exitCode = 2)) ∧
    (main args home fs0 gi gv).fs.readFile (stagedInput args home) = some cIn ∧
    (main args home fs0 gi gv).fs.readFile (stagedSig args home) = some cSig := by
  have spec := stageQuar_spec args home fs0 cIn cSig hs
  have hin := spec.2.2.1 hcol
  have hsig := spec.2.1
  have hfile := FS.isFile_of_readFile _ _ _ hin
  rcases hrej with hv | ⟨hv, ht⟩
  · have heq := main_run_invalid args home fs0 gi gv r hgi spec.1 hfile hgv hv
    refine ⟨⟨fun _ => by rw [heq], fun hc => by rw [hc] at hv; exact absurd hv (by decide)⟩,
      ?_, ?_⟩
    · rw [heq]
      exact hin
    · rw [heq]
      exact hsig
  · have heq := main_run_untrusted args home fs0 gi gv r hgi spec.1 hfile hgv hv ht
    refine ⟨⟨fun hc => by rw [hc] at hv; exact absurd hv (by decide), fun _ => by rw [heq]⟩,
      ?_, ?_⟩
    · rw [heq]
      exact hin
    · rw [heq]
      exact hsig

/-- Witness for C10 on a concrete insufficient-trust rejection: both staged
copies survive. -/
theorem rejected_run_keeps_staged_copies_witness :
    (((⟨true, "2020", "signer", "KEY", 2⟩ : VerifyResult).valid = false →
      (main ⟨"/da/in.bin", "/da/in.sig", "/oa/out.bin", 3, "/qa", "~/.gnupg", "stream", false⟩
        "/ha" ⟨[("/da/in.bin", "INPUT"), ("/da/in.sig", "SIG")], ["/qa"]⟩
        (fun _ => Except.ok ())
        (fun _ _ => Except.ok ⟨true, "2020", "signer", "KEY", 2⟩)).exitCode = 1) ∧
     ((⟨true, "2020", "signer", "KEY", 2⟩ : VerifyResult).valid = true →
      (main ⟨"/da/in.bin", "/da/in.sig", "/oa/out.bin", 3, "/qa", "~/.gnupg", "stream", false⟩
        "/ha" ⟨[("/da/in.bin", "INPUT"), ("/da/in.sig", "SIG")], ["/qa"]⟩
        (fun _ => Except.ok ())
        (fun _ _ => Except.ok ⟨true, "2020", "signer", "KEY", 2⟩)).exitCode = 2)) ∧
    (main ⟨"/da/in.bin", "/da/in.sig", "/oa/out.bin", 3, "/qa", "~/.gnupg", "stream", false⟩
      "/ha" ⟨[("/da/in.bin", "INPUT"), ("/da/in.sig", "SIG")], ["/qa"]⟩
      (fun _ => Except.ok ())
      (fun _ _ => Except.ok ⟨true, "2020", "signer", "KEY", 2⟩)).fs.readFile
      (stagedInput ⟨"/da/in.bin", "/da/in.sig", "/oa/out.bin", 3, "/qa", "~/.gnupg",
        "stream", false⟩ "/ha") = some "INPUT" ∧
    (main ⟨"/da/in.bin", "/da/in.sig", "/oa/out.bin", 3, "/qa", "~/.gnupg", "stream", false⟩
      "/ha" ⟨[("/da/in.bin", "INPUT"), ("/da/in.sig", "SIG")], ["/qa"]⟩
      (fun _ => Except.ok ())
      (fun _ _ => Except.ok ⟨true, "2020", "signer", "KEY", 2⟩)).fs.readFile
      (stagedSig ⟨"/da/in.bin", "/da/in.sig", "/oa/out.bin", 3, "/qa", "~/.gnupg",
        "stream", false⟩ "/ha") = some "SIG" :=
  rejected_run_keeps_staged_copies _ _ _ _ _ ⟨true, "2020", "signer", "KEY", 2⟩
    "INPUT" "SIG"
    ⟨rfl, rfl, Or.inr rfl, by decide, by decide, by decide, rfl, rfl,
      by decide, by decide⟩
    (by decide) rfl rfl (Or.inr ⟨rfl, by decide⟩)

/-! ### Claim C4 -/

/-- Whether a log contains an audit record of the signer (an `infoSigned`
event carrying signer identity, signature timestamp and key ID). -/
def hasAudit : List LogEvent → Bool
  | [] => false
  | LogEvent.infoSigned _ _ _ :: _ => true
  | _ :: rest => hasAudit rest

/-- Counterexample to C4 as stated: a concrete run that reaches the trust
gate (the verification call was made and returned a result) but is rejected
for an invalid signature logs no signer identity, no timestamp and no key
ID at all — the audit line sits after the validity check in the source, so
no audit record exists for invalid-signature rejections. -/
theorem gate_reached_without_audit_counterexample :
    (main ⟨"/d4/in.bin", "/d4/in.sig", "/o4/out.bin", 3, "/q4", "~/.gnupg", "stream", false⟩
      "/h4" ⟨[("/d4/in.bin", "IN"), ("/d4/in.sig", "SG")], ["/q4"]⟩
      (fun _ => Except.ok ())
      (fun _ _ => Except.ok ⟨false, "2020", "signer", "KEY", 4⟩)).verifyCalls
      = [(stagedInput ⟨"/d4/in.bin", "/d4/in.sig", "/o4/out.bin", 3, "/q4", "~/.gnupg",
          "stream", false⟩ "/h4",
          stagedSig ⟨"/d4/in.bin", "/d4/in.sig", "/o4/out.bin", 3, "/q4", "~/.gnupg",
          "stream", false⟩ "/h4")] ∧
    (main ⟨"/d4/in.bin", "/d4/in.sig", "/o4/out.bin", 3, "/q4", "~/.gnupg", "stream", false⟩
      "/h4" ⟨[("/d4/in.bin", "IN"), ("/d4/in.sig", "SG")], ["/q4"]⟩
      (fun _ => Except.ok ())
      (fun _ _ => Except.ok ⟨false, "2020", "signer", "KEY", 4⟩)).exitCode = 1 ∧
    hasAudit (main ⟨"/d4/in.bin", "/d4/in.sig", "/o4/out.bin", 3, "/q4", "~/.gnupg",
        "stream", false⟩
      "/h4" ⟨[("/d4/in.bin", "IN"), ("/d4/in.sig", "SG")], ["/q4"]⟩
      (fun _ => Except.ok ())
      (fun _ _ => Except.ok ⟨false, "2020", "signer", "KEY", 4⟩)).log = false := by
  refine ⟨by decide, by decide, by decide⟩

/-- C4 (amended): for every run that reaches the trust gate with a
signature the engine reports *valid*, the signer identity, signature
creation timestamp and key ID are logged before the trust decision, so the
audit record exists both when the run is rejected for insufficient trust
(where the trust level is also logged, at error level) and when it is
accepted (where the trust level is logged only with verbose logging
enabled).  Runs rejected for an invalid signature produce no audit record. -/
theorem audit_logged_for_valid_sig (args : Args) (home : String) (fs0 : FS)
    (gi : String → Except String Unit)
    (gv : String → String → Except String VerifyResult) (r : VerifyResult)
    (hgi : gi args.gpg_home = Except.ok ())
    (hok : (stageOf args home fs0).ok = true)
    (hfile : (stageOf args home fs0).fs.isFile (stagedInput args home) = true)
    (hgv : gv (stagedInput args home) (stagedSig args home) = Except.ok r)
    (hv : r.valid = true) :
    LogEvent.infoSigned r.creation_date r.username r.key_id
      ∈ (main args home fs0 gi gv).log ∧
    (r.trust_level < args.required_trust_level →
      (main args home fs0 gi gv).exitCode = 2 ∧
      LogEvent.errorTrust r.trust_level ∈ (main args home fs0 gi gv).log) ∧
    (¬ r.trust_level < args.required_trust_level → args.log_verbose = true →
      LogEvent.debugTrustLevel r.trust_level ∈ (main args home fs0 gi gv).log) := by
  by_cases htl : r.trust_level < args.required_trust_level
  · have heq := main_run_untrusted args home fs0 gi gv r hgi hok hfile hgv hv htl
    rw [heq]
    exact ⟨by simp, fun _ => ⟨rfl, by simp⟩, fun hc => absurd htl hc⟩
  · unfold main
    rw [hgi]
    simp only [hok, hfile, if_true, hgv, hv, Bool.true_eq_false, if_false, if_neg htl]
    cases hmv : (stageOf args home fs0).fs.move (stagedInput args home)
        args.output_path with
    | error m =>
        exact ⟨by simp, fun hc => absurd hc htl, fun _ hverb => by simp [dbg, hverb]⟩
    | ok fsA =>
        dsimp only
        cases hrm : fsA.remove (stagedSig args home) with
        | error m =>
            exact ⟨by simp, fun hc => absurd hc htl, fun _ hverb => by simp [dbg, hverb]⟩
        | ok fsB =>
            exact ⟨by simp, fun hc => absurd hc htl, fun _ hverb => by simp [dbg, hverb]⟩

/-- Witness for the amended C4 on a concrete insufficient-trust rejection:
the audit record and the trust-level record are both in the log. -/
theorem audit_logged_for_valid_sig_witness :
    LogEvent.infoSigned "2020" "signer" "KEY"
      ∈ (main ⟨"/d4w/in.bin", "/d4w/in.sig", "/o4w/out.bin", 3, "/q4w", "~/.gnupg",
          "stream", false⟩
        "/h4w" ⟨[("/d4w/in.bin", "IN"), ("/d4w/in.sig", "SG")], ["/q4w"]⟩
        (fun _ => Except.ok ())
        (fun _ _ => Except.ok ⟨true, "2020", "signer", "KEY", 2⟩)).log ∧
    ((2 : Int) < 3 →
      (main ⟨"/d4w/in.bin", "/d4w/in.sig", "/o4w/out.bin", 3, "/q4w", "~/.gnupg",
          "stream", false⟩
        "/h4w" ⟨[("/d4w/in.bin", "IN"), ("/d4w/in.sig", "SG")], ["/q4w"]⟩
        (fun _ => Except.ok ())
        (fun _ _ => Except.ok ⟨true, "2020", "signer", "KEY", 2⟩)).exitCode = 2 ∧
      LogEvent.errorTrust 2
        ∈ (main ⟨"/d4w/in.bin", "/d4w/in.sig", "/o4w/out.bin", 3, "/q4w", "~/.gnupg",
            "stream", false⟩
          "/h4w" ⟨[("/d4w/in.bin", "IN"), ("/d4w/in.sig", "SG")], ["/q4w"]⟩
          (fun _ => Except.ok ())
          (fun _ _ => Except.ok ⟨true, "2020", "signer", "KEY", 2⟩)).log) ∧
    (¬ (2 : Int) < 3 → false = true →
      LogEvent.debugTrustLevel 2
        ∈ (main ⟨"/d4w/in.bin", "/d4w/in.sig", "/o4w/out.bin", 3, "/q4w", "~/.gnupg",
            "stream", false⟩
          "/h4w" ⟨[("/d4w/in.bin", "IN"), ("/d4w/in.sig", "SG")], ["/q4w"]⟩
          (fun _ => Except.ok ())
          (fun _ _ => Except.ok ⟨true, "2020", "signer", "KEY", 2⟩)).log) :=
  audit_logged_for_valid_sig _ _ _ _ _ ⟨true, "2020", "signer", "KEY", 2⟩
    rfl (by decide) (by decide) rfl rfl

end PgpCp
